import Mathlib

/-!
Shallow embedding of src/src/semantic_firewall.py (class SemanticFirewall).

Modelling conventions:
* A detector's raw output is a Python dict; `SemanticFirewall` only ever reads
  the keys "classification", "error", "rule_based_probability",
  "ml_model_confidence", "echo_chamber_probability", "probability",
  "confidence" and "score", so a raw result is embedded as a record of those
  eight optional fields (absent key = `none`).
* Python float scores and thresholds are embedded as rationals: the code never
  does arithmetic on them, only the order comparison `score >= threshold`.
* A detector (lines 28-34 register RuleBasedDetector, MLBasedDetector,
  EchoChamberDetector, InjectionDetector) is a name — its Python class name,
  the key used in the result dict — together with an `analyze_text` behaviour
  that either returns a raw result or raises (embedded as `Except`, the
  `.error` constructor playing the raised exception of the `try/except`).
* The Python result dict preserves insertion order; it is embedded as an
  association list built by `dictInsert`, which updates in place when the key
  exists and appends otherwise, exactly Python's dict assignment.
-/

namespace RADAR

/-- Raw analyzer output: the fields of the Python result dict that
SemanticFirewall reads.  An absent dict key is `none`. -/
structure RawResult where
  classification : Option String := none
  error : Option String := none
  rule_based_probability : Option ℚ := none
  ml_model_confidence : Option ℚ := none
  echo_chamber_probability : Option ℚ := none
  probability : Option ℚ := none
  confidence : Option ℚ := none
  score : Option ℚ := none
  deriving DecidableEq

/-- A registered detector: its stable identifier (the Python class name used
as dict key, line 63) and its `analyze_text` behaviour, which either returns
a raw result or raises an exception carrying a message. -/
structure Detector where
  name : String
  analyze_text : String → Option (List String) → Except String RawResult

/-- Substring occurrence on character lists, the semantics of Python's
`pat in s` for strings (empty pattern always occurs). -/
def substrAux (pat : List Char) : List Char → Bool
  | [] => pat.isEmpty
  | c :: rest => pat.isPrefixOf (c :: rest) || substrAux pat rest

/-- Python's `pat in s` substring test. -/
def containsSubstr (s pat : String) : Bool :=
  substrAux pat.data s.data

/-- Python str.lower, as the ASCII case map over the character sequence.
This is extensionally String.toLower (which maps Char.toLower over the
string) written by structural recursion so that it evaluates on literals. -/
def lowerStr (s : String) : String :=
  ⟨s.data.map Char.toLower⟩

/-- Python dict assignment `m[k] = v`: overwrite in place if the key is
present, else append (insertion order preserved). -/
def dictInsert (m : List (String × RawResult)) (k : String) (v : RawResult) :
    List (String × RawResult) :=
  if m.any (fun p => p.1 == k) then
    m.map (fun p => if p.1 == k then (k, v) else p)
  else
    m ++ [(k, v)]

/-- Error placeholder stored when a detector raises (line 78):
`{"error": str(e), "classification": "error_detector_failed"}`. -/
def errorPlaceholder (e : String) : RawResult :=
  { error := some e, classification := some "error_detector_failed" }

/-- One iteration of the `analyze_conversation` loop body (lines 62-78):
call the detector inside try/except; on success apply the MLBasedDetector
classification override (lines 73-74); on exception store the placeholder. -/
def processDetector (msg : String) (hist : Option (List String)) (d : Detector) :
    RawResult :=
  match d.analyze_text msg hist with
  | .ok r =>
      if d.name == "MLBasedDetector" then
        { r with classification := some "neutral_ml_placeholder" }
      else r
  | .error e => errorPlaceholder e

/-- SemanticFirewall.analyze_conversation (lines 45-79): fan the message out
to every registered detector in order, collecting one entry per detector
keyed by its class name. -/
def analyze_conversation (detectors : List Detector) (msg : String)
    (hist : Option (List String)) : List (String × RawResult) :=
  detectors.foldl (fun m d => dictInsert m d.name (processDetector msg hist d)) []

/-- Line 103 test: `"error" in result and result.get("classification") ==
"error_detector_failed"` (note: the classification comparison is on the raw,
non-lowercased value). -/
def isErrorEntry (r : RawResult) : Bool :=
  r.error.isSome && r.classification == some "error_detector_failed"

/-- Line 109: `result.get("classification", "unknown").lower()`. -/
def classificationOf (r : RawResult) : String :=
  lowerStr (r.classification.getD "unknown")

/-- Per-detector-kind flag decision, lines 112-143: the keyword policy applied
to the lowercased classification, dispatched on the detector name with a
generic fallback for unknown names. -/
def flaggedOf (n : String) (r : RawResult) : Bool :=
  let c := classificationOf r
  if n == "RuleBasedDetector" then
    containsSubstr c "concern" || containsSubstr c "manipulative"
  else if n == "MLBasedDetector" then
    containsSubstr c "manipulative" || containsSubstr c "concern"
  else if n == "EchoChamberDetector" then
    containsSubstr c "echo_chamber" && !containsSubstr c "benign"
  else if n == "InjectionDetector" then
    containsSubstr c "injection" && !containsSubstr c "benign"
  else
    containsSubstr c "manipulative" || containsSubstr c "concern" ||
      (containsSubstr c "potential" && !containsSubstr c "benign")

/-- Per-detector-kind authoritative score, lines 115-145: the named score
field of the kind, defaulting to 0.0 when absent; the generic fallback takes
the first present of probability, confidence, score. -/
def scoreOf (n : String) (r : RawResult) : ℚ :=
  if n == "RuleBasedDetector" then r.rule_based_probability.getD 0
  else if n == "MLBasedDetector" then r.ml_model_confidence.getD 0
  else if n == "EchoChamberDetector" then r.echo_chamber_probability.getD 0
  else if n == "InjectionDetector" then r.score.getD 0
  else r.probability.getD (r.confidence.getD (r.score.getD 0))

/-- Whether one entry of the result map passes the final check of line 148:
not an error entry, flagged by its kind's keyword policy, and with its
authoritative score at or above the threshold. -/
def entryQualifies (t : ℚ) (n : String) (r : RawResult) : Bool :=
  !isErrorEntry r && (flaggedOf n r && decide (t ≤ scoreOf n r))

/-- The decision loop of is_manipulative, lines 101-158: skip error entries
(line 105 continue), return True at the first entry that is flagged with
score above threshold (line 154), else fall through to False (line 158). -/
def decideResults (t : ℚ) : List (String × RawResult) → Bool
  | [] => false
  | (n, r) :: rest =>
    if isErrorEntry r then decideResults t rest
    else if flaggedOf n r && decide (t ≤ scoreOf n r) then true
    else decideResults t rest

/-- The same loop, returning the evidence the code surfaces at the moment it
returns True (the detector_name it logs on lines 149-153): the identifier of
the first qualifying detector, or none when the loop falls through. -/
def firstTrigger (t : ℚ) : List (String × RawResult) → Option String
  | [] => none
  | (n, r) :: rest =>
    if isErrorEntry r then firstTrigger t rest
    else if flaggedOf n r && decide (t ≤ scoreOf n r) then some n
    else firstTrigger t rest

/-- SemanticFirewall.is_manipulative (lines 81-158), with its default
threshold 0.75. -/
def is_manipulative (detectors : List Detector) (msg : String)
    (hist : Option (List String)) (t : ℚ := 3 / 4) : Bool :=
  decideResults t (analyze_conversation detectors msg hist)

/-- SemanticFirewall.__init__ (lines 25-34): the fixed registration of the
four detectors, in order, under their class names.  The behaviours are
parameters since the detector internals live outside this module. -/
def mkSemanticFirewall
    (rb ml ec inj : String → Option (List String) → Except String RawResult) :
    List Detector :=
  [⟨"RuleBasedDetector", rb⟩, ⟨"MLBasedDetector", ml⟩,
   ⟨"EchoChamberDetector", ec⟩, ⟨"InjectionDetector", inj⟩]

/-!
Spec-side definitions.  These restate, in the words of the specification's
claims, the per-kind normalization policy (claim C1 lists the three kinds
that can flag) and the per-kind authoritative score field; they are compared
against the definitions above, which were translated from the code.
-/

/-- Spec-side flag policy of claim C1: RuleBasedDetector flags when the
lowercased classification contains "concern" or "manipulative";
EchoChamberDetector when it contains "echo_chamber" and not "benign";
InjectionDetector when it contains "injection" and not "benign". -/
def specFlag (n : String) (r : RawResult) : Bool :=
  let c := lowerStr (r.classification.getD "unknown")
  (n == "RuleBasedDetector" &&
    (containsSubstr c "concern" || containsSubstr c "manipulative")) ||
  (n == "EchoChamberDetector" &&
    (containsSubstr c "echo_chamber" && !containsSubstr c "benign")) ||
  (n == "InjectionDetector" &&
    (containsSubstr c "injection" && !containsSubstr c "benign"))

/-- Spec-side authoritative score of claim C1: rule_based_probability for
RuleBasedDetector, echo_chamber_probability for EchoChamberDetector, the
score field for InjectionDetector, defaulting to 0 when absent. -/
def specScore (n : String) (r : RawResult) : ℚ :=
  if n == "RuleBasedDetector" then r.rule_based_probability.getD 0
  else if n == "EchoChamberDetector" then r.echo_chamber_probability.getD 0
  else if n == "InjectionDetector" then r.score.getD 0
  else 0

/-- Spec-side qualifying predicate of claim C1: a non-errored entry flagged
by its per-kind keyword policy whose authoritative score is at or above the
threshold. -/
def specQualifies (t : ℚ) (n : String) (r : RawResult) : Bool :=
  !isErrorEntry r && (specFlag n r && decide (t ≤ specScore n r))

/-- The kind's authoritative score field, as an optional value (used to state
claim C7's "the authoritative score field is absent"): the named field for
the four registered kinds, and the first present of probability, confidence,
score for the generic fallback. -/
def authScoreField (n : String) (r : RawResult) : Option ℚ :=
  if n == "RuleBasedDetector" then r.rule_based_probability
  else if n == "MLBasedDetector" then r.ml_model_confidence
  else if n == "EchoChamberDetector" then r.echo_chamber_probability
  else if n == "InjectionDetector" then r.score
  else (r.probability.orElse fun _ => (r.confidence.orElse fun _ => r.score))

/-!
General lemmas about the embedded code.
-/

/-- The result map of the standard four-detector firewall is literally the
four entries in registration order. -/
theorem analyze_conversation_std
    (rb ml ec inj : String → Option (List String) → Except String RawResult)
    (msg : String) (hist : Option (List String)) :
    analyze_conversation (mkSemanticFirewall rb ml ec inj) msg hist =
      [("RuleBasedDetector", processDetector msg hist ⟨"RuleBasedDetector", rb⟩),
       ("MLBasedDetector", processDetector msg hist ⟨"MLBasedDetector", ml⟩),
       ("EchoChamberDetector", processDetector msg hist ⟨"EchoChamberDetector", ec⟩),
       ("InjectionDetector", processDetector msg hist ⟨"InjectionDetector", inj⟩)] := by
  rfl

/-- The decision loop returns true exactly when the evidence-returning loop
finds a trigger. -/
theorem decideResults_eq_isSome_firstTrigger (t : ℚ) :
    ∀ l : List (String × RawResult), decideResults t l = (firstTrigger t l).isSome := by
  intro l
  induction l with
  | nil => rfl
  | cons p rest ih =>
      obtain ⟨n, r⟩ := p
      simp only [decideResults, firstTrigger]
      split
      · exact ih
      · split
        · rfl
        · exact ih

/-- The evidence-returning loop returns the key of the first entry that
qualifies, in list order. -/
theorem firstTrigger_eq_find (t : ℚ) :
    ∀ l : List (String × RawResult),
      firstTrigger t l = (l.find? fun p => entryQualifies t p.1 p.2).map Prod.fst := by
  intro l
  induction l with
  | nil => rfl
  | cons p rest ih =>
      obtain ⟨n, r⟩ := p
      by_cases he : isErrorEntry r
      · have hq : entryQualifies t n r = false := by simp [entryQualifies, he]
        simp [firstTrigger, List.find?, he, hq, ih]
      · by_cases hf : (flaggedOf n r && decide (t ≤ scoreOf n r)) = true
        · have hq : entryQualifies t n r = true := by simp [entryQualifies, he, hf]
          simp [firstTrigger, List.find?, he, hf, hq]
        · have hf' : (flaggedOf n r && decide (t ≤ scoreOf n r)) = false := by
            simpa using hf
          have hq : entryQualifies t n r = false := by simp [entryQualifies, he, hf']
          simp [firstTrigger, List.find?, he, hf', hq, ih]

/-- Congruence for find? under pointwise-equal predicates on the members. -/
theorem find_congrOn {α : Type} (f g : α → Bool) :
    ∀ l : List α, (∀ a ∈ l, f a = g a) → l.find? f = l.find? g := by
  intro l
  induction l with
  | nil => intro _; rfl
  | cons a rest ih =>
      intro h
      have ha := h a (List.mem_cons_self a rest)
      simp only [List.find?, ha]
      split
      · rfl
      · exact ih fun b hb => h b (List.mem_cons_of_mem a hb)

/-- An error placeholder never qualifies: line 103 sends it to continue. -/
theorem entryQualifies_placeholder (t : ℚ) (n e : String) :
    entryQualifies t n (errorPlaceholder e) = false := by
  simp [entryQualifies, isErrorEntry, errorPlaceholder]

/-- The spec-side predicate likewise ignores error placeholders. -/
theorem specQualifies_placeholder (t : ℚ) (n e : String) :
    specQualifies t n (errorPlaceholder e) = false := by
  simp [specQualifies, isErrorEntry, errorPlaceholder]

/-- After the line 74 override the MLBasedDetector entry carries the neutral
sentinel classification, which matches no flag keyword; the entry never
passes the line 148 check. -/
theorem entryQualifies_ml_neutral (t : ℚ) (r : RawResult) :
    entryQualifies t "MLBasedDetector"
      { r with classification := some "neutral_ml_placeholder" } = false := by
  have h1 : isErrorEntry
      { r with classification := some "neutral_ml_placeholder" } = false := by
    simp [isErrorEntry]
  have h2 : flaggedOf "MLBasedDetector"
      { r with classification := some "neutral_ml_placeholder" } = false := by
    rfl
  simp [entryQualifies, h1, h2]

/-- The spec-side policy of claim C1 lists no flagging rule for the
MLBasedDetector kind, so it never qualifies there either. -/
theorem specQualifies_ml (t : ℚ) (r : RawResult) :
    specQualifies t "MLBasedDetector" r = false := by
  simp [specQualifies, specFlag]

/-- On every entry of the standard firewall's result map, the code's
qualifying test (line 148 on the normalized flag and score) coincides with
the spec-side per-kind policy. -/
theorem entry_spec_eq
    (rb ml ec inj : String → Option (List String) → Except String RawResult)
    (msg : String) (hist : Option (List String)) (t : ℚ) :
    ∀ p ∈ analyze_conversation (mkSemanticFirewall rb ml ec inj) msg hist,
      entryQualifies t p.1 p.2 = specQualifies t p.1 p.2 := by
  intro p hp
  rw [analyze_conversation_std] at hp
  simp only [List.mem_cons, List.not_mem_nil, or_false] at hp
  rcases hp with h | h | h | h
  · subst h
    cases hr : rb msg hist with
    | ok r =>
        simp only [processDetector, hr]
        simp [entryQualifies, specQualifies, flaggedOf, specFlag, scoreOf,
          specScore, classificationOf]
    | error e =>
        simp [processDetector, hr, entryQualifies_placeholder,
          specQualifies_placeholder]
  · subst h
    cases hr : ml msg hist with
    | ok r =>
        simp only [processDetector, hr]
        simp [entryQualifies_ml_neutral, specQualifies_ml]
    | error e =>
        simp [processDetector, hr, entryQualifies_placeholder,
          specQualifies_placeholder]
  · subst h
    cases hr : ec msg hist with
    | ok r =>
        simp only [processDetector, hr]
        simp [entryQualifies, specQualifies, flaggedOf, specFlag, scoreOf,
          specScore, classificationOf]
    | error e =>
        simp [processDetector, hr, entryQualifies_placeholder,
          specQualifies_placeholder]
  · subst h
    cases hr : inj msg hist with
    | ok r =>
        simp only [processDetector, hr]
        simp [entryQualifies, specQualifies, flaggedOf, specFlag, scoreOf,
          specScore, classificationOf]
    | error e =>
        simp [processDetector, hr, entryQualifies_placeholder,
          specQualifies_placeholder]

/-- When the evidence loop names a detector, that detector's entry is in the
list and qualifies. -/
theorem firstTrigger_mem (t : ℚ) :
    ∀ l : List (String × RawResult), ∀ n, firstTrigger t l = some n →
      ∃ r, (n, r) ∈ l ∧ entryQualifies t n r = true := by
  intro l
  induction l with
  | nil => intro n h; cases h
  | cons p rest ih =>
      intro n h
      obtain ⟨m, r⟩ := p
      by_cases he : isErrorEntry r
      · rw [firstTrigger, if_pos he] at h
        obtain ⟨r', hmem, hq⟩ := ih n h
        exact ⟨r', List.mem_cons_of_mem _ hmem, hq⟩
      · by_cases hf : (flaggedOf m r && decide (t ≤ scoreOf m r)) = true
        · rw [firstTrigger, if_neg he, if_pos hf] at h
          obtain rfl : m = n := Option.some.inj h
          exact ⟨r, List.mem_cons_self _ _, by simp [entryQualifies, he, hf]⟩
        · rw [firstTrigger, if_neg he, if_neg hf] at h
          obtain ⟨r', hmem, hq⟩ := ih n h
          exact ⟨r', List.mem_cons_of_mem _ hmem, hq⟩

/-- C1: for every result map produced by the firewall and every threshold,
is_manipulative returns true if and only if some non-errored detector entry
is flagged by its per-kind keyword policy (RuleBasedDetector: classification
contains "concern" or "manipulative", score rule_based_probability;
EchoChamberDetector: contains "echo_chamber" and not "benign", score
echo_chamber_probability; InjectionDetector: contains "injection" and not
"benign", score the score field) with authoritative score at or above the
threshold; it returns false when no detector qualifies. -/
theorem c1_is_manipulative_iff_some_qualifies
    (rb ml ec inj : String → Option (List String) → Except String RawResult)
    (msg : String) (hist : Option (List String)) (t : ℚ) :
    is_manipulative (mkSemanticFirewall rb ml ec inj) msg hist t = true ↔
      ∃ p ∈ analyze_conversation (mkSemanticFirewall rb ml ec inj) msg hist,
        specQualifies t p.1 p.2 = true := by
  rw [is_manipulative, decideResults_eq_isSome_firstTrigger, firstTrigger_eq_find,
    find_congrOn _ _ _ (entry_spec_eq rb ml ec inj msg hist t)]
  simp [List.find?_isSome]

/-- C2: for every message and history, and any detector behaviours (raising
or not), the result map of the standard firewall holds exactly one entry per
registered detector, keyed by the detector class name, in registration
order — never more and never fewer. -/
theorem c2_one_entry_per_detector
    (rb ml ec inj : String → Option (List String) → Except String RawResult)
    (msg : String) (hist : Option (List String)) :
    (analyze_conversation (mkSemanticFirewall rb ml ec inj) msg hist).map Prod.fst =
      ["RuleBasedDetector", "MLBasedDetector", "EchoChamberDetector",
       "InjectionDetector"] := by
  rw [analyze_conversation_std]
  rfl

/-- C5: the decision loop identifies the triggering analyzer — the first
entry of the result map, in registration order, that qualifies under the
per-kind policy — and produces no analyzer identity when none qualifies
(find? returns none); is_manipulative returns true exactly when the evidence
is present. -/
theorem c5_triggering_analyzer_first_match
    (rb ml ec inj : String → Option (List String) → Except String RawResult)
    (msg : String) (hist : Option (List String)) (t : ℚ) :
    firstTrigger t (analyze_conversation (mkSemanticFirewall rb ml ec inj) msg hist) =
      ((analyze_conversation (mkSemanticFirewall rb ml ec inj) msg hist).find?
        (fun p => specQualifies t p.1 p.2)).map Prod.fst ∧
    is_manipulative (mkSemanticFirewall rb ml ec inj) msg hist t =
      (firstTrigger t
        (analyze_conversation (mkSemanticFirewall rb ml ec inj) msg hist)).isSome := by
  constructor
  · rw [firstTrigger_eq_find,
      find_congrOn _ _ _ (entry_spec_eq rb ml ec inj msg hist t)]
  · exact decideResults_eq_isSome_firstTrigger t _

/-- C3: when a registered detector raises, the exception is caught inside
the analyze_conversation loop (the .error branch of the embedded try/except)
and that detector's entry of the result map is exactly the placeholder with
the exception message and classification "error_detector_failed"; the call
itself still returns a full map (analyze_conversation and is_manipulative
are total functions of the detector outcomes, so no failure propagates). -/
theorem c3_raising_detector_gets_placeholder
    (rb ml ec inj : String → Option (List String) → Except String RawResult)
    (msg : String) (hist : Option (List String)) (d : Detector) (e : String)
    (hd : d ∈ mkSemanticFirewall rb ml ec inj)
    (he : d.analyze_text msg hist = .error e) :
    List.lookup d.name (analyze_conversation (mkSemanticFirewall rb ml ec inj) msg hist) =
      some { error := some e, classification := some "error_detector_failed" } := by
  rw [analyze_conversation_std]
  simp only [mkSemanticFirewall, List.mem_cons, List.not_mem_nil, or_false] at hd
  rcases hd with h | h | h | h <;> subst h <;>
    simp_all [processDetector, List.lookup, errorPlaceholder]

/-- C4: whatever raw result the MLBasedDetector returns — even one classified
"manipulative" — its stored entry has classification overwritten to the
neutral sentinel "neutral_ml_placeholder", and the MLBasedDetector is never
the detector that triggers a true verdict, at any threshold. -/
theorem c4_ml_classification_neutralized
    (rb ml ec inj : String → Option (List String) → Except String RawResult)
    (msg : String) (hist : Option (List String)) (r : RawResult)
    (hok : ml msg hist = .ok r) :
    List.lookup "MLBasedDetector"
        (analyze_conversation (mkSemanticFirewall rb ml ec inj) msg hist) =
      some { r with classification := some "neutral_ml_placeholder" } ∧
    ∀ t : ℚ,
      firstTrigger t (analyze_conversation (mkSemanticFirewall rb ml ec inj) msg hist) ≠
        some "MLBasedDetector" := by
  constructor
  · rw [analyze_conversation_std]
    simp [List.lookup, processDetector, hok]
  · intro t hcontra
    obtain ⟨r', hmem, hq⟩ := firstTrigger_mem t _ _ hcontra
    rw [analyze_conversation_std] at hmem
    simp only [List.mem_cons, List.not_mem_nil, or_false, Prod.mk.injEq] at hmem
    have hr' : r' = processDetector msg hist ⟨"MLBasedDetector", ml⟩ := by
      rcases hmem with ⟨hn, _⟩ | ⟨_, hr⟩ | ⟨hn, _⟩ | ⟨hn, _⟩
      · exact absurd hn (by decide)
      · exact hr
      · exact absurd hn (by decide)
      · exact absurd hn (by decide)
    rw [hr'] at hq
    rw [processDetector] at hq
    simp only [hok] at hq
    rw [if_pos (by decide)] at hq
    rw [entryQualifies_ml_neutral] at hq
    cases hq

/-- C6: an entry whose classification field is the exact string
"error_detector_failed" never passes the decision check (whether or not it
also carries an error field), and both the boolean loop and the evidence
loop behave on a map containing it exactly as on the map without it — it is
excluded from flagging while remaining a map entry. -/
theorem c6_error_classification_never_flags (t : ℚ) (n : String) (r : RawResult)
    (rest : List (String × RawResult))
    (h : r.classification = some "error_detector_failed") :
    entryQualifies t n r = false ∧
    decideResults t ((n, r) :: rest) = decideResults t rest ∧
    firstTrigger t ((n, r) :: rest) = firstTrigger t rest := by
  have hc : classificationOf r = "error_detector_failed" := by
    simp only [classificationOf, h]
    rfl
  have hflag : flaggedOf n r = false := by
    simp only [flaggedOf, hc]
    split
    · decide
    split
    · decide
    split
    · decide
    split
    · decide
    decide
  refine ⟨by simp [entryQualifies, hflag], ?_, ?_⟩
  · simp [decideResults, hflag]
  · simp [firstTrigger, hflag]

/-- Behaviour of a detector that returns a benign classification. -/
def benignDetector : String → Option (List String) → Except String RawResult :=
  fun _ _ => .ok { classification := some "benign" }

/-- Behaviour of a detector that raises. -/
def raisingDetector : String → Option (List String) → Except String RawResult :=
  fun _ _ => .error "detector crashed"

/-- Behaviour of a rule-based detector returning a flagged classification but
omitting the rule_based_probability field. -/
def rbMissingScore : String → Option (List String) → Except String RawResult :=
  fun _ _ => .ok { classification := some "manipulative_pattern" }

/-- Behaviour of an ML detector claiming a manipulative classification with
full confidence. -/
def mlManipulative : String → Option (List String) → Except String RawResult :=
  fun _ _ => .ok { classification := some "manipulative", ml_model_confidence := some 1 }

/-- C7 counterexample: at threshold 0, a RuleBasedDetector result with a
flagged classification but NO rule_based_probability field does make
is_manipulative return true, because the missing score normalizes to 0.0 and
0.0 >= 0 holds.  So a missing-score entry can cause a true verdict for
non-positive thresholds, contradicting claim C7's "for any threshold". -/
theorem c7_counterexample :
    is_manipulative
      (mkSemanticFirewall rbMissingScore benignDetector benignDetector benignDetector)
      "you always twist my words" none 0 = true := by
  decide

/-- C7 as amended: an entry whose kind's authoritative score field is absent
is thresholded with score 0.0, and it never passes the decision check for
any positive threshold (by the counterexample, the restriction to positive
thresholds is necessary; the default threshold 0.75 is positive). -/
theorem c7_missing_score_normalizes_to_zero (t : ℚ) (n : String) (r : RawResult)
    (habs : authScoreField n r = none) :
    scoreOf n r = 0 ∧ (0 < t → entryQualifies t n r = false) := by
  have hscore : scoreOf n r = 0 := by
    by_cases h1 : n == "RuleBasedDetector"
    · rw [authScoreField, if_pos h1] at habs
      rw [scoreOf, if_pos h1, habs]
      rfl
    · by_cases h2 : n == "MLBasedDetector"
      · rw [authScoreField, if_neg h1, if_pos h2] at habs
        rw [scoreOf, if_neg h1, if_pos h2, habs]
        rfl
      · by_cases h3 : n == "EchoChamberDetector"
        · rw [authScoreField, if_neg h1, if_neg h2, if_pos h3] at habs
          rw [scoreOf, if_neg h1, if_neg h2, if_pos h3, habs]
          rfl
        · by_cases h4 : n == "InjectionDetector"
          · rw [authScoreField, if_neg h1, if_neg h2, if_neg h3, if_pos h4] at habs
            rw [scoreOf, if_neg h1, if_neg h2, if_neg h3, if_pos h4, habs]
            rfl
          · rw [authScoreField, if_neg h1, if_neg h2, if_neg h3, if_neg h4] at habs
            rw [scoreOf, if_neg h1, if_neg h2, if_neg h3, if_neg h4]
            cases hp : r.probability with
            | some a => rw [hp] at habs; simp [Option.orElse] at habs
            | none =>
                cases hc : r.confidence with
                | some a => rw [hp, hc] at habs; simp [Option.orElse] at habs
                | none =>
                    cases hs : r.score with
                    | some a => rw [hp, hc, hs] at habs; simp [Option.orElse] at habs
                    | none => simp [hp, hc, hs]
  refine ⟨hscore, fun ht => ?_⟩
  have hnle : ¬ (t ≤ scoreOf n r) := by rw [hscore]; exact not_le.mpr ht
  simp [entryQualifies, hnle]

/-- C8: for an entry whose detector name is none of the four registered
kinds, the generic fallback applies — flagged exactly when the lowercased
classification contains "manipulative", "concern", or "potential" without
"benign"; the authoritative score is the first present of the probability,
confidence and score fields, else 0. -/
theorem c8_generic_fallback (n : String) (r : RawResult)
    (h1 : n ≠ "RuleBasedDetector") (h2 : n ≠ "MLBasedDetector")
    (h3 : n ≠ "EchoChamberDetector") (h4 : n ≠ "InjectionDetector") :
    flaggedOf n r =
      (containsSubstr (classificationOf r) "manipulative" ||
       containsSubstr (classificationOf r) "concern" ||
       (containsSubstr (classificationOf r) "potential" &&
        !containsSubstr (classificationOf r) "benign")) ∧
    scoreOf n r = r.probability.getD (r.confidence.getD (r.score.getD 0)) := by
  constructor
  · simp [flaggedOf, h1, h2, h3, h4]
  · simp [scoreOf, h1, h2, h3, h4]

/-- C9: when every registered detector raises, every entry of the result map
is an error placeholder and is_manipulative returns false — it fails open
instead of raising or blocking. -/
theorem c9_total_failure_fails_open
    (rb ml ec inj : String → Option (List String) → Except String RawResult)
    (msg : String) (hist : Option (List String)) (t : ℚ) (e1 e2 e3 e4 : String)
    (h1 : rb msg hist = .error e1) (h2 : ml msg hist = .error e2)
    (h3 : ec msg hist = .error e3) (h4 : inj msg hist = .error e4) :
    is_manipulative (mkSemanticFirewall rb ml ec inj) msg hist t = false := by
  rw [is_manipulative, analyze_conversation_std]
  simp [processDetector, h1, h2, h3, h4, decideResults, errorPlaceholder, isErrorEntry]

/-- C10: scores are compared to the threshold exactly as returned, with no
clamping or validation to the unit interval: a non-errored entry with a
flagged classification passes the decision check precisely when its
authoritative score (any rational, also above 1 or negative) is at or above
the threshold, and the decision loop on such an entry returns exactly that
comparison. -/
theorem c10_score_used_unclamped (t : ℚ) (n : String) (r : RawResult)
    (he : isErrorEntry r = false) (hf : flaggedOf n r = true) :
    (entryQualifies t n r = true ↔ t ≤ scoreOf n r) ∧
    decideResults t [(n, r)] = decide (t ≤ scoreOf n r) := by
  constructor
  · simp [entryQualifies, he, hf]
  · simp [decideResults, he, hf]

/-- Witness for C3: a raising EchoChamberDetector yields the placeholder. -/
theorem c3_witness :
    List.lookup "EchoChamberDetector"
      (analyze_conversation
        (mkSemanticFirewall benignDetector benignDetector raisingDetector benignDetector)
        "msg" none) =
      some { error := some "detector crashed",
             classification := some "error_detector_failed" } :=
  c3_raising_detector_gets_placeholder benignDetector benignDetector raisingDetector
    benignDetector "msg" none ⟨"EchoChamberDetector", raisingDetector⟩ "detector crashed"
    (by simp [mkSemanticFirewall]) rfl

/-- Witness for C4: an MLBasedDetector result classified "manipulative" with
confidence 1 is stored with the neutral sentinel and never triggers. -/
theorem c4_witness :
    List.lookup "MLBasedDetector"
      (analyze_conversation
        (mkSemanticFirewall benignDetector mlManipulative benignDetector benignDetector)
        "msg" none) =
      some { classification := some "neutral_ml_placeholder",
             ml_model_confidence := some 1 } ∧
    firstTrigger 1
      (analyze_conversation
        (mkSemanticFirewall benignDetector mlManipulative benignDetector benignDetector)
        "msg" none) ≠ some "MLBasedDetector" := by
  have h := c4_ml_classification_neutralized benignDetector mlManipulative benignDetector
    benignDetector "msg" none
    { classification := some "manipulative", ml_model_confidence := some 1 } rfl
  exact ⟨h.1, h.2 1⟩

/-- Witness for C6: an entry classified "error_detector_failed" (here with a
score present) is skipped by both loops. -/
theorem c6_witness :
    entryQualifies 1 "RuleBasedDetector"
      { classification := some "error_detector_failed",
        rule_based_probability := some 1 } = false ∧
    decideResults 1 [("RuleBasedDetector",
      { classification := some "error_detector_failed",
        rule_based_probability := some 1 })] = decideResults 1 [] ∧
    firstTrigger 1 [("RuleBasedDetector",
      { classification := some "error_detector_failed",
        rule_based_probability := some 1 })] = firstTrigger 1 [] :=
  c6_error_classification_never_flags 1 "RuleBasedDetector"
    { classification := some "error_detector_failed",
      rule_based_probability := some 1 } [] rfl

/-- Witness for the amended C7: a flagged RuleBasedDetector result without a
rule_based_probability field scores 0 and does not qualify at threshold 1. -/
theorem c7_witness :
    scoreOf "RuleBasedDetector" { classification := some "manipulative" } = 0 ∧
    entryQualifies 1 "RuleBasedDetector" { classification := some "manipulative" } = false := by
  have h := c7_missing_score_normalizes_to_zero 1 "RuleBasedDetector"
    { classification := some "manipulative" } rfl
  exact ⟨h.1, h.2 (by norm_num)⟩

/-- Witness for C8: an unregistered detector name falls back to the generic
keyword policy and the probability-first score. -/
theorem c8_witness :
    flaggedOf "CustomDetector"
        { classification := some "potential_threat", probability := some 1 } =
      (containsSubstr (classificationOf
          { classification := some "potential_threat", probability := some 1 })
          "manipulative" ||
       containsSubstr (classificationOf
          { classification := some "potential_threat", probability := some 1 })
          "concern" ||
       (containsSubstr (classificationOf
          { classification := some "potential_threat", probability := some 1 })
          "potential" &&
        !containsSubstr (classificationOf
          { classification := some "potential_threat", probability := some 1 })
          "benign")) ∧
    scoreOf "CustomDetector"
        { classification := some "potential_threat", probability := some 1 } =
      (Option.some (1 : ℚ)).getD
        ((Option.none).getD ((Option.none).getD 0)) :=
  c8_generic_fallback "CustomDetector"
    { classification := some "potential_threat", probability := some 1 }
    (by decide) (by decide) (by decide) (by decide)

/-- Witness for C9: all four detectors raising yields a false verdict at the
default threshold. -/
theorem c9_witness :
    is_manipulative
      (mkSemanticFirewall raisingDetector raisingDetector raisingDetector raisingDetector)
      "msg" none (3 / 4) = false :=
  c9_total_failure_fails_open raisingDetector raisingDetector raisingDetector
    raisingDetector "msg" none (3 / 4) "detector crashed" "detector crashed"
    "detector crashed" "detector crashed" rfl rfl rfl rfl

/-- Witness for C10: a score of 2 — above the claimed [0,1] convention — is
compared unclamped and qualifies at threshold 1. -/
theorem c10_witness :
    entryQualifies 1 "RuleBasedDetector"
      { classification := some "manipulative", rule_based_probability := some 2 } = true := by
  have h := c10_score_used_unclamped 1 "RuleBasedDetector"
    { classification := some "manipulative", rule_based_probability := some 2 } rfl rfl
  refine h.1.mpr ?_
  show (1 : ℚ) ≤ scoreOf "RuleBasedDetector"
    { classification := some "manipulative", rule_based_probability := some 2 }
  norm_num [scoreOf]

end RADAR
